import Mathlib

/-
Verification development for the ws chat transport and the message
reconciliation engine of this repository.

The transport source is packages/ai-chat/src/ws-chat-transport.ts.  Its
event-driven behaviour (the stream listener installed by sendMessages, the
shared finish helper, onAbort, reconnectToStream, handleStreamResuming and
the resume timeout) is embedded below as explicit state machines: each
JavaScript event handler becomes a total Lean function on an explicit state
record, and a run is a fold over a list of events.  JSON parsing of chunk
bodies is opaque to the transport, so the step functions are parametrised
by a parse function `String → Option String` standing for JSON.parse on the
body (some = parsed chunk, none = throw).
-/

/-- Wire value of MessageType.CF_AGENT_USE_CHAT_RESPONSE (see types.ts import
in ws-chat-transport.ts; the string value is pinned by the tests, which
dispatch frames with this literal type). -/
def CF_AGENT_USE_CHAT_RESPONSE : String := "cf_agent_use_chat_response"

/-- A parsed inbound frame, mirroring the fields the transport reads from
`OutgoingMessage`: `data.type`, `data.id`, `data.body`, `data.done`,
`data.error`. -/
structure WireMsg where
  type : String
  id : String
  body : Option String
  done : Bool
  error : Bool
deriving DecidableEq

/-- One inbound websocket event: either `event.data` fails the outer
JSON.parse (swallowed by the outer catch) or it parses to a frame. -/
inductive InEvent where
  | malformed
  | msg (m : WireMsg)
deriving DecidableEq

/-- Consumer-visible actions on the ReadableStream controller, in order.
`abortError` models `controller.error(abortError)` where `abortError` is
`new Error("Aborted")` with `name = "AbortError"` — kept as a constructor
distinct from `streamError` precisely because the code distinguishes the
abort signal from a generic stream error. -/
inductive OutAction where
  | enqueue (chunk : String)
  | close
  | streamError (msg : String)
  | abortError
deriving DecidableEq

/-- Outbound frames the transport sends, tagged by MessageType. -/
inductive OutFrame where
  | sendRequest (id : String)
  | cancelFrame (id : String)
  | resumeRequestFrame
  | resumeAck (id : String)
deriving DecidableEq

/-- State of one sendMessages stream: the `completed` flag, whether the
message listener is still attached (it is removed when the internal
AbortController fires inside `finish`), the ordered log of consumer-visible
actions, the frames sent on the wire after the initial SEND_REQUEST, and
the shared active-request-id set. -/
structure SendState where
  requestId : String
  completed : Bool
  listener : Bool
  out : List OutAction
  wire : List OutFrame
  active : List String
deriving DecidableEq

/-- The single cleanup helper of sendMessages: every terminal path (done,
error, abort) goes through here exactly once.  Mirrors
`finish = (action) => { if (completed) return; completed = true;
try { action() } catch {}; activeIds?.delete(requestId);
abortController.abort(); }` — the abort of the internal controller removes
the message listener. -/
def finish (s : SendState) (a : OutAction) : SendState :=
  if s.completed then s
  else { s with
    completed := true
    out := s.out ++ [a]
    active := s.active.erase s.requestId
    listener := false }

/-- Truthiness of `data.body?.trim()`: the body has content iff it contains
a non-whitespace character. -/
def bodyHasContent (b : String) : Bool :=
  b.data.any (fun c => !c.isWhitespace)

/-- Outcome of the chunk-body handling in onMessage: `JSON.parse(data.body)`
is attempted only when `data.body?.trim()` is truthy, and a parse throw is
swallowed (`catch { /* skip malformed chunk bodies */ }`). -/
def chunkOf (parse : String → Option String) (m : WireMsg) : Option String :=
  match m.body with
  | some b => if bodyHasContent b then parse b else none
  | none => none

/-- JavaScript `data.body || "Stream error"`: the only falsy string is the
empty one. -/
def errorBodyOrDefault : Option String → String
  | some b => if b = "" then "Stream error" else b
  | none => "Stream error"

/-- The message listener of the sendMessages stream (the onMessage closure
inside `new ReadableStream.start`).  The listener only runs while attached;
unparseable events are dropped by the outer catch; frames with the wrong
type or id are ignored; an error frame terminates via finish; otherwise a
parseable non-empty body is enqueued and a done frame closes via finish.
The onMessage inside `_createResumeStream` has the identical shape. -/
def onMessage (parse : String → Option String) (s : SendState) (e : InEvent) :
    SendState :=
  if s.listener = false then s
  else
    match e with
    | .malformed => s
    | .msg m =>
      if m.type ≠ CF_AGENT_USE_CHAT_RESPONSE then s
      else if m.id ≠ s.requestId then s
      else if m.error then finish s (.streamError (errorBodyOrDefault m.body))
      else
        let s1 :=
          match chunkOf parse m with
          | some c => { s with out := s.out ++ [OutAction.enqueue c] }
          | none => s
        if m.done then finish s1 OutAction.close else s1

/-- The abort handler used by both the caller abortSignal and
`stream.cancel()`: if already completed it returns immediately; otherwise it
best-effort sends a CANCEL frame (`try { agent.send(...) } catch {}` —
`cancelOk` says whether that synchronous send succeeds; a throw is
swallowed) and then finishes with the abort error. -/
def onAbort (cancelOk : Bool) (s : SendState) : SendState :=
  if s.completed then s
  else
    finish
      (if cancelOk then
        { s with wire := s.wire ++ [OutFrame.cancelFrame s.requestId] }
      else s)
      OutAction.abortError

/-- External events that can reach one sendMessages stream: an inbound
websocket message, or an abort trigger (abortSignal fired or
stream.cancel called); `cancelOk` is whether the CANCEL send succeeds. -/
inductive SEvent where
  | inbound (e : InEvent)
  | abort (cancelOk : Bool)
deriving DecidableEq

/-- One event step of the sendMessages stream machine. -/
def stepA (parse : String → Option String) (s : SendState) : SEvent → SendState
  | .inbound e => onMessage parse s e
  | .abort ok => onAbort ok s

/-- Run of the sendMessages stream machine over a list of events. -/
def runA (parse : String → Option String) (s : SendState) (es : List SEvent) :
    SendState :=
  es.foldl (stepA parse) s

/-- State of a fresh sendMessages stream right after the synchronous body of
sendMessages ran: nothing completed, the listener attached by `start`, no
consumer output, the request id registered in the active set. -/
def sendInit (rid : String) : SendState :=
  { requestId := rid, completed := false, listener := true
    out := [], wire := [], active := [rid] }

/-- The synchronous tail of sendMessages: after registering the id and
wiring the abort handling, `agent.send(SEND_REQUEST)` is issued with no
try/catch, so a synchronous send throw propagates to the caller — modelled
by `Except.error`. -/
def sendMessagesCall (sendOk alreadyAborted cancelOk : Bool) (rid : String) :
    Except Unit SendState :=
  let s0 := sendInit rid
  let s1 := if alreadyAborted then onAbort cancelOk s0 else s0
  if sendOk then Except.ok { s1 with wire := s1.wire ++ [OutFrame.sendRequest rid] }
  else Except.error ()

/-- Projection of an inbound event to the frame it carries when that frame
is a RESPONSE_CHUNK addressed to request id `rid`. -/
def addressedTo (rid : String) (e : InEvent) : Option WireMsg :=
  match e with
  | .malformed => none
  | .msg m =>
    if m.type = CF_AGENT_USE_CHAT_RESPONSE then
      if m.id = rid then some m else none
    else none

/-- The chunks carried by a frame sequence: one per frame whose body is
present, non-whitespace and parseable. -/
def carriedChunks (parse : String → Option String) (fs : List WireMsg) :
    List String :=
  fs.filterMap (chunkOf parse)

/-
Resume machine: reconnectToStream, handleStreamResuming, the 5-second
timeout and _createResumeStream of ws-chat-transport.ts, embedded as one
state machine per transport instance.  Each reconnectToStream call is a
token (its index in `calls`); its promise resolution is the call's entry in
`calls` (`none` = still pending).  The single shared `_resumeResolver` slot
is `resolver`, holding the token whose resolver closure is installed.
Connection handles are numbered by Nat so that a `transport.agent`
reassignment (the singleton-transport pattern in the tests) is observable:
`wire` records on which handle each frame was sent.
-/

/-- Resolution value of one reconnectToStream promise: `nullRes` models
resolving with null ("nothing to resume", a normal outcome, not an error);
`stream id agent` models resolving with the ReadableStream produced by
`_createResumeStream id`, whose message listener attached to connection
handle `agent` (read from `this.agent` at resolve time). -/
inductive ROutcome where
  | nullRes
  | stream (id : String) (agent : Nat)
deriving DecidableEq

/-- Transport-level state for the resume protocol. -/
structure RState where
  agent : Nat
  resolver : Option Nat
  calls : List (Option ROutcome)
  timers : List Nat
  active : List String
  wire : List (Nat × OutFrame)
deriving DecidableEq

/-- JavaScript `Set.add`: insert if absent, keep insertion order. -/
def addId (l : List String) (x : String) : List String :=
  if l.contains x then l else l ++ [x]

/-- The per-call `done` helper inside reconnectToStream:
`if (resolved) return; resolved = true; this._resumeResolver = null;
if (timeout) clearTimeout(timeout); resolve(value);`.  Note that the shared
resolver slot is nulled unconditionally once this call resolves, even when
the slot currently belongs to a later call. -/
def resumeDone (s : RState) (t : Nat) (o : ROutcome) : RState :=
  match s.calls[t]? with
  | some none =>
    { s with
      calls := s.calls.set t (some o)
      resolver := none
      timers := s.timers.erase t }
  | _ => s

/-- One reconnectToStream invocation (synchronous part): registers a fresh
pending call, installs its resolver in the shared slot (overwriting any
prior one), best-effort sends RESUME_REQUEST on the current connection
(`try { this.agent.send(...) } catch {}` — a synchronous throw, `sendOk =
false`, is swallowed), and arms the call's 5000 ms timeout. -/
def reconnectToStream (s : RState) (sendOk : Bool) : RState :=
  let t := s.calls.length
  let s1 := { s with calls := s.calls ++ [none], resolver := some t }
  let s2 :=
    if sendOk then
      { s1 with wire := s1.wire ++ [(s1.agent, OutFrame.resumeRequestFrame)] }
    else s1
  { s2 with timers := s2.timers ++ [t] }

/-- The fixed resume timeout window: `setTimeout(() => done(null), 5000)`. -/
def RESUME_TIMEOUT_MS : Nat := 5000

/-- Result of a handleStreamResuming call: the boolean it returns, or
`thrown` when a synchronous exception escapes it (there is no try/catch
around `this.agent.send(RESUME_ACK)` inside the resolver). -/
inductive HandleResult where
  | handled (b : Bool)
  | thrown
deriving DecidableEq

/-- handleStreamResuming: returns false at once if no resolver is pending;
otherwise invokes the installed resolver, which adds `id` to the shared
active set, sends RESUME_ACK on the current `this.agent` (`sendOk` says
whether that synchronous send succeeds — a throw escapes, leaving the
resolver slot, the pending call and the timer untouched), and on success
resolves the pending call with a resume stream bound to `id` on the current
agent, then returns true. -/
def handleStreamResuming (s : RState) (id : String) (sendOk : Bool) :
    RState × HandleResult :=
  match s.resolver with
  | none => (s, .handled false)
  | some t =>
    let s1 := { s with active := addId s.active id }
    if sendOk then
      let s2 := { s1 with wire := s1.wire ++ [(s1.agent, OutFrame.resumeAck id)] }
      (resumeDone s2 t (ROutcome.stream id s2.agent), .handled true)
    else (s1, .thrown)

/-- The timer of call `t` fires: if still armed, the timer disarms itself
and runs `done(null)` for its call. -/
def resumeTimeoutFire (s : RState) (t : Nat) : RState :=
  if s.timers.contains t then
    resumeDone { s with timers := s.timers.erase t } t ROutcome.nullRes
  else s

/-- External events driving the resume machine. -/
inductive REvent where
  | reconnect (sendOk : Bool)
  | resuming (id : String) (sendOk : Bool)
  | timerFire (t : Nat)
  | agentSwap (a : Nat)
deriving DecidableEq

/-- One event step of the resume machine (dropping handleStreamResuming's
return value). -/
def stepR (s : RState) : REvent → RState
  | .reconnect ok => reconnectToStream s ok
  | .resuming id ok => (handleStreamResuming s id ok).1
  | .timerFire t => resumeTimeoutFire s t
  | .agentSwap a => { s with agent := a }

/-- Run of the resume machine over a list of events. -/
def runR (s : RState) (es : List REvent) : RState :=
  es.foldl stepR s

/-- A fresh transport bound to connection handle `a`: no pending resolver,
no calls, empty active set. -/
def RInit (a : Nat) : RState :=
  { agent := a, resolver := none, calls := [], timers := [], active := []
    wire := [] }

/-
Reconciliation engine.  The implementation of
_reconcileAssistantIdsWithServerState and of the persistMessages deletion
gating is code of this repository that is not under src/ — only its tests
(packages/ai-chat/src/tests/reconcile-identical-content.test.ts) and the
changeset notes are.  The definitions below are therefore modelled from the
spec (sections 4.4 and 3 of spec.md), faithful to its words, and are
checked against the concrete behaviours the in-repo tests pin down.
-/

/-- A conversation message: identifier, role, and its serialized content
(content matching in the spec is byte-equality of serialized content, so a
single string suffices). -/
structure Msg where
  id : String
  role : String
  content : String
deriving DecidableEq

/-- Modelled from the spec: the identifier of the server message at index
`j`, with a fallback (used only at indices produced by a successful match,
which are always in range). -/
def serverIdAt (server : List Msg) (j : Nat) (dflt : String) : String :=
  match server.get? j with
  | some sm => sm.id
  | none => dflt

/-- Modelled from the spec, pass 1: the first still-unclaimed server index
whose message identifier equals `mid`, if any. -/
def unclaimedIdMatch (server : List Msg) (claimed : List Nat) (mid : String) :
    Option Nat :=
  (List.range server.length).find? fun j =>
    !(claimed.contains j) &&
      (match server.get? j with
       | some sm => sm.id == mid
       | none => false)

/-- Modelled from the spec, pass 2: only assistant-role messages participate
in content matching; scan all still-unclaimed server indices in ascending
original order and take the first with equal role and byte-equal serialized
content (earliest unclaimed index wins ties). -/
def unclaimedContentMatch (server : List Msg) (claimed : List Nat) (m : Msg) :
    Option Nat :=
  if m.role == "assistant" then
    (List.range server.length).find? fun j =>
      !(claimed.contains j) &&
        (match server.get? j with
         | some sm => sm.role == "assistant" && sm.content == m.content
         | none => false)
  else none

/-- Modelled from the spec, pass 1 (exact-identifier pass): for each client
message in order, if its identifier equals an unclaimed server message's
identifier, claim that server index and record an identity mapping.
Returns the claimed index set and each client message tagged with its
pass-1 claim. -/
def exactIdPass (server client : List Msg) :
    List Nat × List (Msg × Option Nat) :=
  client.foldl
    (fun acc m =>
      match unclaimedIdMatch server acc.1 m.id with
      | some j => (acc.1 ++ [j], acc.2 ++ [(m, some j)])
      | none => (acc.1, acc.2 ++ [(m, none)]))
    ([], [])

/-- Modelled from the spec, pass 2 (content pass): each client message not
claimed in pass 1 scans all still-unclaimed server indices in ascending
order; on a match the client identifier is remapped to the server
identifier, otherwise the message keeps its client-assigned identifier. -/
def contentPass (server : List Msg) (claimed : List Nat)
    (tagged : List (Msg × Option Nat)) : List Msg :=
  (tagged.foldl
    (fun (acc : List Nat × List Msg) mj =>
      match mj.2 with
      | some j => (acc.1, acc.2 ++ [{ mj.1 with id := serverIdAt server j mj.1.id }])
      | none =>
        match unclaimedContentMatch server acc.1 mj.1 with
        | some j =>
          (acc.1 ++ [j], acc.2 ++ [{ mj.1 with id := serverIdAt server j mj.1.id }])
        | none => (acc.1, acc.2 ++ [mj.1]))
    (claimed, [])).2

/-- Modelled from the spec: the two-pass reconciliation (source symbol
_reconcileAssistantIdsWithServerState, not under src/) — pass 1 claims all
exact-identifier matches first, then pass 2 content-matches the rest
against the remaining unclaimed server indices. -/
def reconcileAssistantIdsWithServerState (server client : List Msg) :
    List Msg :=
  let p := exactIdPass server client
  contentPass server p.1 p.2

/-- Result of a persistMessages reconciliation: the final ordered message
list, the stale identifiers (serverIds minus finalIds), the deletions
actually applied, and whether the subset gate allowed deletion. -/
structure ReconciliationResult where
  final : List Msg
  staleIds : List String
  toDelete : List String
  deleteApplied : Bool
deriving DecidableEq

/-- Modelled from the spec: the persistMessages deletion gating (source
symbol persistMessages with _deleteStaleRows, not under src/; see the
fix-preserve-server-messages changeset): compute toDelete = serverIds −
finalIds and apply it only if finalIds ⊆ serverIds; if the client
introduces any identifier the server never had, skip deletion entirely. -/
def persistMessages (server client : List Msg) : ReconciliationResult :=
  let finalMsgs := reconcileAssistantIdsWithServerState server client
  let serverIds := server.map Msg.id
  let finalIds := finalMsgs.map Msg.id
  let subsetOk := finalIds.all (fun i => serverIds.contains i)
  let stale := serverIds.filter (fun i => !(finalIds.contains i))
  { final := finalMsgs
    staleIds := stale
    toDelete := if subsetOk then stale else []
    deleteApplied := subsetOk }

/-
Helper lemmas about the sendMessages stream machine.
-/

/-- A detached listener processes nothing. -/
theorem onMessage_detached (parse : String → Option String) (s : SendState)
    (e : InEvent) (h : s.listener = false) : onMessage parse s e = s := by
  simp [onMessage, h]

/-- Events that are not RESPONSE_CHUNK frames for this request leave the
stream unchanged. -/
theorem onMessage_not_addressed (parse : String → Option String)
    (s : SendState) (e : InEvent) (h : addressedTo s.requestId e = none) :
    onMessage parse s e = s := by
  cases e with
  | malformed => simp [onMessage, ite_self]
  | msg m =>
    by_cases ht : m.type = CF_AGENT_USE_CHAT_RESPONSE
    · by_cases hid : m.id = s.requestId
      · simp [addressedTo, ht, hid] at h
      · simp [onMessage, ht, hid, ite_self]
    · simp [onMessage, ht, ite_self]

/-- An addressed, non-error, non-done frame appends exactly the chunk its
body carries (nothing when the body is empty, whitespace-only or
unparseable) and changes nothing else. -/
theorem onMessage_chunk (parse : String → Option String) (s : SendState)
    (m : WireMsg) (hl : s.listener = true)
    (ht : m.type = CF_AGENT_USE_CHAT_RESPONSE) (hid : m.id = s.requestId)
    (he : m.error = false) (hd : m.done = false) :
    onMessage parse s (.msg m) =
      { s with out := s.out ++ (chunkOf parse m).toList.map OutAction.enqueue } := by
  obtain ⟨r, c, l, o, w, a⟩ := s
  simp only [SendState.listener] at hl
  subst hl
  simp only [SendState.requestId] at hid
  cases hk : chunkOf parse m <;>
    simp [onMessage, ht, hid, he, hd, hk]

/-- An addressed, non-error, done frame appends its carried chunk (if any)
and then a single close through finish, completing the stream, detaching
the listener and releasing the request id. -/
theorem onMessage_done (parse : String → Option String) (s : SendState)
    (m : WireMsg) (hl : s.listener = true) (hc : s.completed = false)
    (ht : m.type = CF_AGENT_USE_CHAT_RESPONSE) (hid : m.id = s.requestId)
    (he : m.error = false) (hd : m.done = true) :
    onMessage parse s (.msg m) =
      { s with
        out := s.out ++ (chunkOf parse m).toList.map OutAction.enqueue
                ++ [OutAction.close]
        completed := true
        listener := false
        active := s.active.erase s.requestId } := by
  cases hk : chunkOf parse m <;>
    simp [onMessage, finish, hl, hc, ht, hid, he, hd, hk]

/-- A completed stream with a detached listener absorbs every further
event. -/
theorem stepA_terminal (parse : String → Option String) (s : SendState)
    (e : SEvent) (hc : s.completed = true) (hl : s.listener = false) :
    stepA parse s e = s := by
  cases e with
  | inbound e => exact onMessage_detached parse s e hl
  | abort ok => simp [stepA, onAbort, hc]

/-- A completed stream with a detached listener is a fixed point of every
run. -/
theorem runA_terminal (parse : String → Option String) (s : SendState)
    (hc : s.completed = true) (hl : s.listener = false) :
    ∀ es, runA parse s es = s
  | [] => rfl
  | e :: es => by
    rw [runA, List.foldl_cons, stepA_terminal parse s e hc hl]
    exact runA_terminal parse s hc hl es

/-- Over inbound events whose addressed frames are all non-error and
non-done, a live stream stays live and its output grows by exactly the
carried chunks, in arrival order. -/
theorem runA_live (parse : String → Option String) :
    ∀ (es : List InEvent) (s : SendState),
      s.completed = false → s.listener = true →
      (∀ m ∈ es.filterMap (addressedTo s.requestId),
        m.error = false ∧ m.done = false) →
      runA parse s (es.map SEvent.inbound) =
        { s with
          out := s.out
            ++ (carriedChunks parse
                  (es.filterMap (addressedTo s.requestId))).map OutAction.enqueue }
  | [], s, _, _, _ => by simp [runA, carriedChunks]
  | e :: es, s, hc, hl, hpre => by
    rw [List.map_cons, runA, List.foldl_cons]
    show runA parse (stepA parse s (SEvent.inbound e)) (es.map SEvent.inbound) = _
    cases ha : addressedTo s.requestId e with
    | none =>
      have hstep : stepA parse s (SEvent.inbound e) = s :=
        onMessage_not_addressed parse s e ha
      rw [hstep, runA_live parse es s hc hl ?_]
      · rw [List.filterMap_cons_none ha]
      · intro m hm
        refine hpre m ?_
        rw [List.filterMap_cons_none ha]
        exact hm
    | some m =>
      obtain ⟨m', hm'⟩ : ∃ m', e = InEvent.msg m' := by
        cases e with
        | malformed => simp [addressedTo] at ha
        | msg m' => exact ⟨m', rfl⟩
      subst hm'
      have htid : m'.type = CF_AGENT_USE_CHAT_RESPONSE ∧ m'.id = s.requestId
          ∧ m = m' := by
        by_cases ht : m'.type = CF_AGENT_USE_CHAT_RESPONSE
        · by_cases hid : m'.id = s.requestId
          · simp [addressedTo, ht, hid] at ha
            exact ⟨ht, hid, ha.symm⟩
          · simp [addressedTo, ht, hid] at ha
        · simp [addressedTo, ht] at ha
      obtain ⟨ht, hid, hmm⟩ := htid
      subst hmm
      have hmem : m ∈ (InEvent.msg m :: es).filterMap (addressedTo s.requestId) := by
        rw [List.filterMap_cons_some ha]
        exact List.mem_cons_self m _
      obtain ⟨he, hd⟩ := hpre m hmem
      have hstep : stepA parse s (SEvent.inbound (InEvent.msg m)) =
          { s with out := s.out ++ (chunkOf parse m).toList.map OutAction.enqueue } :=
        onMessage_chunk parse s m hl ht hid he hd
      rw [hstep]
      rw [runA_live parse es
        { s with out := s.out ++ (chunkOf parse m).toList.map OutAction.enqueue }
        hc hl ?_]
      · rw [List.filterMap_cons_some ha]
        cases hk : chunkOf parse m <;>
          simp [carriedChunks, List.filterMap_cons, hk, List.append_assoc]
      · intro mm hmm2
        refine hpre mm ?_
        rw [List.filterMap_cons_some ha]
        exact List.mem_cons_of_mem _ hmm2

/-- Claim C3: for every sequence of RESPONSE_CHUNK frames addressed to a
stream's request identifier and ending with done = true, the consumer of
the stream returned by sendMessages observes exactly the chunks carried by
those frames, in arrival order with no reordering or deduplication,
followed by exactly one close; the close never fires twice — any further
events (inbound frames or abort triggers) leave the terminal state
untouched, because every terminal path goes through the idempotent finish
helper. -/
theorem c3_chunks_in_order_single_close (parse : String → Option String)
    (rid : String) (es : List InEvent) (mlast : WireMsg)
    (hpre : ∀ m ∈ es.filterMap (addressedTo rid),
      m.error = false ∧ m.done = false)
    (ht : mlast.type = CF_AGENT_USE_CHAT_RESPONSE) (hid : mlast.id = rid)
    (he : mlast.error = false) (hd : mlast.done = true) :
    (runA parse (sendInit rid)
        ((es ++ [InEvent.msg mlast]).map SEvent.inbound)).out
      = (carriedChunks parse
          (es.filterMap (addressedTo rid) ++ [mlast])).map OutAction.enqueue
        ++ [OutAction.close]
    ∧ (runA parse (sendInit rid)
        ((es ++ [InEvent.msg mlast]).map SEvent.inbound)).out.count
          OutAction.close = 1
    ∧ ∀ extra : List SEvent,
        runA parse
          (runA parse (sendInit rid)
            ((es ++ [InEvent.msg mlast]).map SEvent.inbound)) extra
        = runA parse (sendInit rid)
            ((es ++ [InEvent.msg mlast]).map SEvent.inbound) := by
  have hrid : (sendInit rid).requestId = rid := rfl
  have hlive := runA_live parse es (sendInit rid) rfl rfl (by rw [hrid]; exact hpre)
  have hsplit : (es ++ [InEvent.msg mlast]).map SEvent.inbound
      = es.map SEvent.inbound ++ [SEvent.inbound (InEvent.msg mlast)] := by
    simp
  have hfin : runA parse (sendInit rid)
      ((es ++ [InEvent.msg mlast]).map SEvent.inbound)
      = { sendInit rid with
          out := (carriedChunks parse (es.filterMap (addressedTo rid))).map
                    OutAction.enqueue
            ++ (chunkOf parse mlast).toList.map OutAction.enqueue
            ++ [OutAction.close]
          completed := true
          listener := false
          active := List.erase [rid] rid } := by
    rw [hsplit, runA, List.foldl_append, ← runA, ← runA, hlive, hrid]
    show runA parse _ [SEvent.inbound (InEvent.msg mlast)] = _
    rw [runA, List.foldl_cons, List.foldl_nil]
    show onMessage parse _ (InEvent.msg mlast) = _
    rw [onMessage_done parse _ mlast rfl rfl ht (by rw [hid]) he hd]
    simp [sendInit]
  have hout : (runA parse (sendInit rid)
      ((es ++ [InEvent.msg mlast]).map SEvent.inbound)).out
      = (carriedChunks parse
          (es.filterMap (addressedTo rid) ++ [mlast])).map OutAction.enqueue
        ++ [OutAction.close] := by
    rw [hfin]
    show (carriedChunks parse (es.filterMap (addressedTo rid))).map
          OutAction.enqueue
        ++ (chunkOf parse mlast).toList.map OutAction.enqueue
        ++ [OutAction.close] = _
    rw [carriedChunks, carriedChunks, List.filterMap_append]
    cases hk : chunkOf parse mlast <;>
      simp [List.filterMap_cons, hk, List.append_assoc]
  refine ⟨hout, ?_, ?_⟩
  · rw [hout]
    rw [List.count_append]
    have h0 : ((carriedChunks parse
        (es.filterMap (addressedTo rid) ++ [mlast])).map
          OutAction.enqueue).count OutAction.close = 0 := by
      rw [List.count_eq_zero]
      simp
    rw [h0, List.count_singleton]
    simp
  · intro extra
    rw [hfin]
    exact runA_terminal parse _ rfl rfl extra

/-- Witness for claim C3: a concrete run — one parseable chunk frame, then
an empty done frame — delivers exactly that chunk and one close. -/
theorem c3_chunks_in_order_single_close_witness :
    (runA (fun b => if b = "c1" then some "k1" else none) (sendInit "r")
        (([InEvent.msg ⟨CF_AGENT_USE_CHAT_RESPONSE, "r", some "c1", false, false⟩]
          ++ [InEvent.msg ⟨CF_AGENT_USE_CHAT_RESPONSE, "r", none, true, false⟩]).map
            SEvent.inbound)).out
      = [OutAction.enqueue "k1", OutAction.close] := by
  have h := c3_chunks_in_order_single_close
    (fun b => if b = "c1" then some "k1" else none) "r"
    [InEvent.msg ⟨CF_AGENT_USE_CHAT_RESPONSE, "r", some "c1", false, false⟩]
    ⟨CF_AGENT_USE_CHAT_RESPONSE, "r", none, true, false⟩
    (by decide) rfl rfl rfl rfl
  rw [h.1]
  decide

/-- Claim C8: cancelling a stream returned by sendMessages before any chunk
has arrived emits exactly one CANCEL frame and resolves the consumer with
an abort outcome exactly once, even if cancellation is triggered twice
(abortSignal plus stream.cancel both run onAbort), and that abort outcome
is the distinct abort signal (the AbortError-named error, modelled by the
dedicated OutAction.abortError constructor), not a generic stream error. -/
theorem c8_cancel_abort_once (parse : String → Option String) (rid : String)
    (ok2 : Bool) :
    (runA parse (sendInit rid) [SEvent.abort true, SEvent.abort ok2]).wire
        = [OutFrame.cancelFrame rid]
    ∧ (runA parse (sendInit rid) [SEvent.abort true, SEvent.abort ok2]).out
        = [OutAction.abortError]
    ∧ (runA parse (sendInit rid) [SEvent.abort true]).out
        = [OutAction.abortError]
    ∧ ∀ emsg, OutAction.abortError ≠ OutAction.streamError emsg := by
  refine ⟨?_, ?_, ?_, fun emsg h => by cases h⟩ <;>
    simp [runA, stepA, onAbort, finish, sendInit]

/-- Claim C10: an inbound RESPONSE_CHUNK frame matching an active stream's
identifier and not marked error or done whose body is empty,
whitespace-only, or not parseable as JSON is silently skipped — nothing is
enqueued, the stream neither closes nor errors, the listener stays attached
(so later frames keep being processed, the state being unchanged); and a
done = true frame with such a body closes the stream without delivering any
chunk. -/
theorem c10_unparseable_body_skipped (parse : String → Option String)
    (s : SendState) (m : WireMsg)
    (hc : s.completed = false) (hl : s.listener = true)
    (ht : m.type = CF_AGENT_USE_CHAT_RESPONSE) (hid : m.id = s.requestId)
    (he : m.error = false)
    (hb : m.body = none ∨
      ∃ b, m.body = some b ∧ (bodyHasContent b = false ∨ parse b = none)) :
    (m.done = false → onMessage parse s (.msg m) = s)
    ∧ (m.done = true →
        onMessage parse s (.msg m)
          = { s with
              out := s.out ++ [OutAction.close]
              completed := true
              listener := false
              active := s.active.erase s.requestId }) := by
  have hk : chunkOf parse m = none := by
    rcases hb with h | ⟨b, hb1, hb2⟩
    · simp [chunkOf, h]
    · rcases hb2 with h2 | h2 <;> simp [chunkOf, hb1, h2]
  constructor
  · intro hd
    rw [onMessage_chunk parse s m hl ht hid he hd, hk]
    simp
  · intro hd
    rw [onMessage_done parse s m hl hc ht hid he hd, hk]
    simp

/-- Witness for claim C10: a whitespace-only body on a live stream is a
no-op. -/
theorem c10_unparseable_body_skipped_witness :
    onMessage (fun _ => none) (sendInit "r")
        (InEvent.msg ⟨CF_AGENT_USE_CHAT_RESPONSE, "r", some " ", false, false⟩)
      = sendInit "r" :=
  (c10_unparseable_body_skipped (fun _ => none) (sendInit "r")
      ⟨CF_AGENT_USE_CHAT_RESPONSE, "r", some " ", false, false⟩
      rfl rfl rfl rfl rfl
      (Or.inr ⟨" ", rfl, Or.inl (by decide)⟩)).1 rfl

/-
Helper lemmas about the resume machine.
-/

/-- Adding an id makes it a member of the JavaScript-style set. -/
theorem addId_contains (l : List String) (x : String) :
    (addId l x).contains x = true := by
  by_cases h : l.contains x <;> simp_all [addId]

/-- With no pending resolver, handleStreamResuming returns false and does
nothing. -/
theorem handleStreamResuming_no_resolver (s : RState) (id : String)
    (ok : Bool) (h : s.resolver = none) :
    handleStreamResuming s id ok = (s, HandleResult.handled false) := by
  simp [handleStreamResuming, h]

/-- With a pending resolver and a successful ACK send, handleStreamResuming
runs the resolver: active-set add, one RESUME_ACK on the current agent,
then done with a resume stream on the current agent, returning true. -/
theorem handleStreamResuming_success (s : RState) (t : Nat) (id : String)
    (h1 : s.resolver = some t) :
    handleStreamResuming s id true =
      (resumeDone
        { s with
          active := addId s.active id
          wire := s.wire ++ [(s.agent, OutFrame.resumeAck id)] }
        t (ROutcome.stream id s.agent), HandleResult.handled true) := by
  simp [handleStreamResuming, h1]

/-- resumeDone on a pending call resolves it, clears the shared resolver
slot and disarms the call's timer. -/
theorem resumeDone_pending (s : RState) (t : Nat) (o : ROutcome)
    (h : s.calls[t]? = some none) :
    resumeDone s t o =
      { s with
        calls := s.calls.set t (some o)
        resolver := none
        timers := s.timers.erase t } := by
  simp [resumeDone, h]

/-- Reading back the entry a set wrote. -/
theorem getElem?_set_written {α : Type} (l : List α) (t : Nat) (a b : α)
    (h : l[t]? = some a) : (l.set t b)[t]? = some b := by
  rcases List.getElem?_eq_some.1 h with ⟨hlt, _⟩
  exact List.getElem?_set_self (by simpa using hlt)

/-- Claim C4: handleStreamResuming returns false and performs no side
effects when no resume resolver is pending (already resolved, timed out,
or never requested); when a resolver is pending, one call consumes it,
marks the given id active in the shared active-identifier set, transmits
exactly one RESUME_ACK carrying that id on the wire, resolves the pending
reconnectToStream call with a stream bound to that id, and any subsequent
call (same or different id) returns false. -/
theorem c4_handleStreamResuming_contract :
    (∀ (s : RState) (id : String) (ok : Bool), s.resolver = none →
      handleStreamResuming s id ok = (s, HandleResult.handled false))
    ∧ (∀ (s : RState) (t : Nat) (id : String),
        s.resolver = some t → s.calls[t]? = some none →
        (handleStreamResuming s id true).2 = HandleResult.handled true
        ∧ (handleStreamResuming s id true).1.active.contains id = true
        ∧ (handleStreamResuming s id true).1.wire
            = s.wire ++ [(s.agent, OutFrame.resumeAck id)]
        ∧ (handleStreamResuming s id true).1.calls[t]?
            = some (some (ROutcome.stream id s.agent))
        ∧ (handleStreamResuming s id true).1.resolver = none
        ∧ ∀ (id2 : String) (ok2 : Bool),
            handleStreamResuming (handleStreamResuming s id true).1 id2 ok2
              = ((handleStreamResuming s id true).1,
                  HandleResult.handled false)) := by
  refine ⟨handleStreamResuming_no_resolver, ?_⟩
  intro s t id h1 h2
  rw [handleStreamResuming_success s t id h1,
    resumeDone_pending _ t _ (by simpa using h2)]
  refine ⟨rfl, by simpa using addId_contains s.active id, rfl,
    getElem?_set_written _ t _ _ h2, rfl, ?_⟩
  intro id2 ok2
  exact handleStreamResuming_no_resolver _ id2 ok2 rfl

/-- Witness for claim C4: a concrete pending-resolver state (one
reconnectToStream call on a fresh transport) is consumed by one
handleStreamResuming call, which returns true and acknowledges the id. -/
theorem c4_handleStreamResuming_contract_witness :
    (handleStreamResuming (reconnectToStream (RInit 0) true) "r1" true).2
        = HandleResult.handled true
    ∧ (handleStreamResuming (reconnectToStream (RInit 0) true) "r1" true).1.wire
        = (reconnectToStream (RInit 0) true).wire
          ++ [((reconnectToStream (RInit 0) true).agent, OutFrame.resumeAck "r1")] := by
  have h := c4_handleStreamResuming_contract.2
    (reconnectToStream (RInit 0) true) 0 "r1" (by decide) (by decide)
  exact ⟨h.1, h.2.2.1⟩

/-- Claim C5: if no STREAM_RESUMING hand-off occurs within the fixed
timeout window (default 5 seconds, the literal 5000 ms) after the
RESUME_REQUEST is sent, the reconnectToStream call resolves with null — a
normal "nothing to resume" outcome, not an error — and the pending
resolver slot is cleared, so a later call to handleStreamResuming returns
false. -/
theorem c5_timeout_resolves_null (a : Nat) (ok ok2 : Bool) (id2 : String) :
    RESUME_TIMEOUT_MS = 5000
    ∧ (resumeTimeoutFire (reconnectToStream (RInit a) ok) 0).calls
        = [some ROutcome.nullRes]
    ∧ (resumeTimeoutFire (reconnectToStream (RInit a) ok) 0).resolver = none
    ∧ handleStreamResuming
        (resumeTimeoutFire (reconnectToStream (RInit a) ok) 0) id2 ok2
      = (resumeTimeoutFire (reconnectToStream (RInit a) ok) 0,
          HandleResult.handled false) := by
  cases ok <;>
    exact ⟨rfl, rfl, rfl, handleStreamResuming_no_resolver _ id2 ok2 rfl⟩

/-- Claim C6: at most one pending resume resolver exists per transport —
a second reconnectToStream call overwrites the prior one's resolver slot;
after one notification only the most recent call resolves with a live
stream, and the superseded call resolves null at its own timeout (a normal
resolution, not an error). -/
theorem c6_latest_resolver_wins (a : Nat) (id : String) (ok1 ok2 : Bool) :
    (reconnectToStream (RInit a) ok1).resolver = some 0
    ∧ (reconnectToStream (reconnectToStream (RInit a) ok1) ok2).resolver
        = some 1
    ∧ (handleStreamResuming
        (reconnectToStream (reconnectToStream (RInit a) ok1) ok2) id true).2
        = HandleResult.handled true
    ∧ (handleStreamResuming
        (reconnectToStream (reconnectToStream (RInit a) ok1) ok2) id
          true).1.calls
        = [none, some (ROutcome.stream id a)]
    ∧ (resumeTimeoutFire
        (handleStreamResuming
          (reconnectToStream (reconnectToStream (RInit a) ok1) ok2) id
            true).1 0).calls
        = [some ROutcome.nullRes, some (ROutcome.stream id a)] := by
  cases ok1 <;> cases ok2 <;>
    refine ⟨rfl, rfl, rfl, ?_, ?_⟩ <;>
      simp [reconnectToStream, handleStreamResuming, resumeDone,
        resumeTimeoutFire, RInit, addId]

/-- Claim C7: when the hand-off resolves a pending resume after the
underlying connection has been replaced, the RESUME_ACK is transmitted via
— and the resumed stream's inbound listener attaches to — the connection
handle that is current at resolve time (`s.agent`), not the one captured
when reconnectToStream was called: in the concrete agent-swap trace the
RESUME_REQUEST goes out on the old handle while the ACK and the resumed
stream's listener use the new handle. -/
theorem c7_resolve_time_agent (s : RState) (t : Nat) (id : String)
    (h1 : s.resolver = some t) (h2 : s.calls[t]? = some none) :
    (handleStreamResuming s id true).1.wire
        = s.wire ++ [(s.agent, OutFrame.resumeAck id)]
    ∧ (handleStreamResuming s id true).1.calls[t]?
        = some (some (ROutcome.stream id s.agent))
    ∧ ∀ (a0 a1 : Nat) (rid : String),
        (runR (RInit a0) [REvent.reconnect true, REvent.agentSwap a1,
            REvent.resuming rid true]).wire
          = [(a0, OutFrame.resumeRequestFrame), (a1, OutFrame.resumeAck rid)]
        ∧ (runR (RInit a0) [REvent.reconnect true, REvent.agentSwap a1,
            REvent.resuming rid true]).calls
          = [some (ROutcome.stream rid a1)] := by
  rw [handleStreamResuming_success s t id h1,
    resumeDone_pending _ t _ (by simpa using h2)]
  refine ⟨rfl, getElem?_set_written _ t _ _ h2, ?_⟩
  intro a0 a1 rid
  constructor <;>
    simp [runR, stepR, reconnectToStream, handleStreamResuming, resumeDone,
      resumeTimeoutFire, RInit, addId]

/-- Witness for claim C7: the general resolve-time-agent facts instantiated
at the state left by one reconnectToStream call on a fresh transport. -/
theorem c7_resolve_time_agent_witness :
    (handleStreamResuming (reconnectToStream (RInit 7) true) "r2" true).1.wire
      = (reconnectToStream (RInit 7) true).wire
        ++ [((reconnectToStream (RInit 7) true).agent, OutFrame.resumeAck "r2")] :=
  (c7_resolve_time_agent (reconnectToStream (RInit 7) true) 0 "r2"
      (by decide) (by decide)).1

/-- Counterexample for claim C9 as stated: the claim says a synchronous
throw from the connection's send is swallowed when transmitting RESUME_ACK,
but the source wraps no try/catch around `this.agent.send` inside the
resume resolver, so with a pending resolver and a failing send the
exception escapes handleStreamResuming to its caller: at the concrete state
left by one reconnectToStream call, the hand-off with a failing ACK send
yields a propagated throw, not a swallowed one. -/
theorem c9_resume_ack_throw_escapes :
    (handleStreamResuming (reconnectToStream (RInit 0) true) "r1" false).2
      = HandleResult.thrown := by decide

/-- Claim C9 (amended): a synchronous throw from the connection's send is
swallowed for the CANCEL frame (the abort still completes with the abort
outcome, merely without the frame on the wire) and for the RESUME_REQUEST
frame (the resume call still installs its resolver and arms its timer),
and is propagated to the caller for the initial SEND_REQUEST transmitted by
sendMessages — but for RESUME_ACK the throw propagates out of
handleStreamResuming to its caller, leaving the resolver slot, the pending
call and its timer in place, so the pending resume call later resolves
null via its own timeout. -/
theorem c9_send_failure_paths (parse : String → Option String)
    (rid : String) :
    ((runA parse (sendInit rid) [SEvent.abort false]).out
        = [OutAction.abortError]
      ∧ (runA parse (sendInit rid) [SEvent.abort false]).wire = [])
    ∧ (∀ s : RState,
        (reconnectToStream s false).resolver = some s.calls.length
        ∧ (reconnectToStream s false).wire = s.wire
        ∧ (reconnectToStream s false).timers = s.timers ++ [s.calls.length])
    ∧ (∀ ab co : Bool, sendMessagesCall false ab co rid = Except.error ())
    ∧ (∀ (s : RState) (t : Nat) (id : String),
        s.resolver = some t → s.calls[t]? = some none →
        s.timers.contains t = true →
        (handleStreamResuming s id false).2 = HandleResult.thrown
        ∧ (handleStreamResuming s id false).1.resolver = some t
        ∧ (handleStreamResuming s id false).1.timers = s.timers
        ∧ (resumeTimeoutFire (handleStreamResuming s id false).1 t).calls[t]?
            = some (some ROutcome.nullRes)) := by
  refine ⟨⟨?_, ?_⟩, ?_, ?_, ?_⟩
  · simp [runA, stepA, onAbort, finish, sendInit]
  · simp [runA, stepA, onAbort, finish, sendInit]
  · intro s
    exact ⟨rfl, rfl, rfl⟩
  · intro ab co
    cases ab <;> rfl
  · intro s t id h1 h2 h3
    have hfail : handleStreamResuming s id false
        = ({ s with active := addId s.active id }, HandleResult.thrown) := by
      simp [handleStreamResuming, h1]
    rw [hfail]
    refine ⟨rfl, h1, rfl, ?_⟩
    show (resumeTimeoutFire { s with active := addId s.active id } t).calls[t]?
      = some (some ROutcome.nullRes)
    rw [resumeTimeoutFire]
    rw [if_pos (by simpa using h3)]
    rw [resumeDone_pending _ t _ (by simpa using h2)]
    exact getElem?_set_written _ t _ _ h2

/-- Witness for claim C9 (amended): the RESUME_ACK propagation conjunct at
the concrete state left by one reconnectToStream call — the throw escapes
and the pending call then resolves null when its timer fires. -/
theorem c9_send_failure_paths_witness :
    (handleStreamResuming (reconnectToStream (RInit 0) true) "w1" false).2
        = HandleResult.thrown
    ∧ (resumeTimeoutFire
        (handleStreamResuming (reconnectToStream (RInit 0) true) "w1"
          false).1 0).calls[0]?
        = some (some ROutcome.nullRes) := by
  have h := (c9_send_failure_paths (fun _ => none) "r").2.2.2
    (reconnectToStream (RInit 0) true) 0 "w1" (by decide) (by decide)
    (by decide)
  exact ⟨h.1, h.2.2.2⟩

/-
Concrete reconciliation scenarios, taken from the spec's testable
properties (section 8) and pinned by
packages/ai-chat/src/tests/reconcile-identical-content.test.ts.
-/

/-- Server state with two identical-content assistant messages. -/
def c1Server : List Msg :=
  [⟨"u1", "user", "Hi"⟩, ⟨"s1", "assistant", "Sure"⟩,
   ⟨"u2", "user", "More"⟩, ⟨"s2", "assistant", "Sure"⟩]

/-- Client list where both assistants carry fresh client-generated ids. -/
def c1ClientA : List Msg :=
  [⟨"u1", "user", "Hi"⟩, ⟨"x1", "assistant", "Sure"⟩,
   ⟨"u2", "user", "More"⟩, ⟨"x2", "assistant", "Sure"⟩]

/-- Client list with positional drift: the server id s2 appears at the
first assistant position, and the second assistant is client-generated. -/
def c1ClientB : List Msg :=
  [⟨"u1", "user", "Hi"⟩, ⟨"s2", "assistant", "Sure"⟩,
   ⟨"u2", "user", "More"⟩, ⟨"x1", "assistant", "Sure"⟩]

/-- Server with three messages, for the deletion-gating scenarios. -/
def c2Server : List Msg :=
  [⟨"m1", "user", "a"⟩, ⟨"m2", "assistant", "b"⟩, ⟨"m3", "assistant", "c"⟩]

/-- Client sending only the first two messages (a regenerate trim). -/
def c2Trim : List Msg :=
  [⟨"m1", "user", "a"⟩, ⟨"m2", "assistant", "b"⟩]

/-- Client sending the first two messages plus one brand-new message id the
server never had. -/
def c2New : List Msg :=
  [⟨"m1", "user", "a"⟩, ⟨"m2", "assistant", "b"⟩, ⟨"n1", "user", "d"⟩]

/-- Claim C1: reconciliation pass 2 scans every still-unclaimed server
index in ascending original order (never a single advancing cursor), with
the earliest unclaimed index winning ties for duplicate content: for
server = [U1, S1:"Sure", U2, S2:"Sure"] and client = [U1, X1:"Sure", U2,
X2:"Sure"] the final ids are [u1, s1, u2, s2] with zero deletions and zero
duplicates; and for client = [U1, S2:"Sure", U2, X1:"Sure"] (S2
exact-id-matched out of position in pass 1) X1 content-matches the
earlier, still-unclaimed S1, giving final ids [u1, s2, u2, s1], 4
persisted rows and no orphaned server rows. -/
theorem c1_two_pass_reconciliation :
    ((persistMessages c1Server c1ClientA).final.map Msg.id
        = ["u1", "s1", "u2", "s2"]
      ∧ (persistMessages c1Server c1ClientA).toDelete = []
      ∧ ((persistMessages c1Server c1ClientA).final.map Msg.id).Nodup)
    ∧ ((persistMessages c1Server c1ClientB).final.map Msg.id
        = ["u1", "s2", "u2", "s1"]
      ∧ (persistMessages c1Server c1ClientB).final.length = 4
      ∧ (persistMessages c1Server c1ClientB).toDelete = []
      ∧ (persistMessages c1Server c1ClientB).staleIds = []) := by
  decide

/-- Claim C2: persistence deletion is gated by a subset condition —
toDelete = serverIds − finalIds is applied exactly when every final id is
a server id; with 3 server messages and a client trim to the first 2, the
3rd is deleted, but adding one brand-new message id skips deletion
entirely even though the 3rd id is still absent (it remains merely
stale). -/
theorem c2_deletion_subset_gate :
    (persistMessages c2Server c2Trim).toDelete = ["m3"]
    ∧ (persistMessages c2Server c2Trim).deleteApplied = true
    ∧ (persistMessages c2Server c2New).deleteApplied = false
    ∧ (persistMessages c2Server c2New).toDelete = []
    ∧ (persistMessages c2Server c2New).staleIds = ["m3"]
    ∧ (∀ server client : List Msg,
        (persistMessages server client).deleteApplied = true ↔
          ∀ i ∈ (persistMessages server client).final.map Msg.id,
            i ∈ server.map Msg.id)
    ∧ (∀ server client : List Msg,
        (persistMessages server client).deleteApplied = false →
          (persistMessages server client).toDelete = []) := by
  refine ⟨by decide, by decide, by decide, by decide, by decide, ?_, ?_⟩
  · intro server client
    simp [persistMessages, List.all_eq_true]
  · intro server client h
    simp only [persistMessages] at h ⊢
    rw [h]
    simp

/-- Witness for claim C2: the subset-gate conjuncts instantiated at the
brand-new-id scenario — the gate is down and nothing is deleted. -/
theorem c2_deletion_subset_gate_witness :
    (persistMessages c2Server c2New).toDelete = [] :=
  c2_deletion_subset_gate.2.2.2.2.2.2 c2Server c2New (by decide)
